import Mathlib

/-!
Shallow embedding of the PySupComIO binary decoders (read/model.py,
read/animation.py, read/_common.py) together with the plain data classes
they populate (model.py, animation.py, common_types.py).

Conventions of the embedding:
  - The byte source handed to a decoder is modelled as a list of byte
    values (`Buffer`); the reads that the source performs through the
    file object itself (read(1) scanning, read(length)) become pure
    lookups into that list.
  - Every struct.unpack_from call in the source passes the open
    io.BufferedReader where CPython requires a bytes-like object; such a
    call raises TypeError unconditionally, for every format including the
    empty one, before the format, the offset or the buffer content is
    consulted. This is modelled by `unpackFromFileReader`; the code that
    would consume the unpacked fields is kept after the bind so the
    unreachable branches of the source stay visible.
  - 32-bit float fields are kept as their little-endian 32-bit patterns
    (a Nat); no numeric interpretation of floats is needed by any claim.
  - A call that can raise, return, or run forever yields a value of
    `POut`: `ok` for a normal return, `err` for a raised exception,
    `div` for a call that never terminates.
  - Python semantics that decide control flow are modelled explicitly and
    documented at the point of use: identity comparison of a bytes object
    with a str literal is always false; `list += x` requires x to be
    iterable and raises TypeError otherwise; reading an attribute that a
    class only annotates but never assigns raises AttributeError; in an
    augmented assignment `a.b += e` the attribute load of `a.b` happens
    before `e` is evaluated.
-/

namespace PySupComIO

abbrev Buffer := List Nat

/-- Byte of the buffer at index i; only consulted after a bounds test. -/
def byteAt (buf : Buffer) (i : Nat) : Nat := buf.getD i 0

/-- Little-endian unsigned 16-bit value at offset. -/
def readLE16 (buf : Buffer) (off : Nat) : Nat :=
  byteAt buf off + 256 * byteAt buf (off + 1)

/-- Little-endian unsigned 32-bit value at offset (also the bit pattern of a
32-bit float field). -/
def readLE32 (buf : Buffer) (off : Nat) : Nat :=
  byteAt buf off + 256 * (byteAt buf (off + 1) +
    256 * (byteAt buf (off + 2) + 256 * byteAt buf (off + 3)))

/-- Little-endian encoding of a 32-bit value, used to build concrete buffers. -/
def u32le (n : Nat) : List Nat :=
  [n % 256, n / 256 % 256, n / 65536 % 256, n / 16777216 % 256]

/-- The exception kinds the decoders mention. FileError and
FileVersionError are the (aliased-to-Exception) names raised by the header
checks, reachable only in dead branches; the others are builtin Python
exception kinds and the two module-level error aliases of model.py and
animation.py, several of which likewise occur only in branches that the
unconditional unpack TypeError makes unreachable. -/
inductive PyErr where
  | structError
  | fileError
  | fileVersionError
  | typeError
  | attributeError
  | valueError
  | indexError
  | unicodeDecodeError
  | invalidBoneLinkError
  | incompleteTriangle
  deriving DecidableEq, Repr

/-- Outcome of running a piece of the decoder: normal return, raised
exception, or nontermination. -/
inductive POut (α : Type) where
  | ok (a : α)
  | err (e : PyErr)
  | div
  deriving DecidableEq, Repr

def POut.bind {α β : Type} : POut α → (α → POut β) → POut β
  | POut.ok a, f => f a
  | POut.err e, _ => POut.err e
  | POut.div, _ => POut.div

instance : Monad POut where
  pure := POut.ok
  bind := POut.bind

/-- struct.unpack_from(fmt, file_reader, offset) as written throughout this
source: the second argument is the io.BufferedReader, not a bytes-like
object, so CPython raises TypeError on every call — for every format
string, the empty one included, and regardless of offset, buffer content
or length. -/
def unpackFromFileReader : POut Unit := POut.err PyErr.typeError

/-! Output data classes (common_types.py, model.py, animation.py).
Object references into sibling arrays (bone.parent, vertex.bones,
triangle.vertices) are modelled arena-style as indices into the owning
array; a Python attribute that is annotated in the class body but never
assigned on the instance is modelled as an Option that stays none. -/

structure Transform where
  position : List Nat := []
  rotation : List Nat := []
  deriving DecidableEq, Repr

structure Bone where
  name : List Nat := []
  index : Int := -1
  parent : Option Nat := none
  parent_index : Int := -1
  inverse_rest_pose_matrix : List (List Nat) :=
    [[1065353216, 0, 0], [0, 1065353216, 0], [0, 0, 1065353216]]
  transform : Transform := {}
  deriving DecidableEq, Repr

structure Vertex where
  index : Int := 0
  position : List Nat := []
  normal : List Nat := []
  tangent : List Nat := []
  binormal : List Nat := []
  UVs : List (List Nat) := []
  bones : List Nat := []
  deriving DecidableEq, Repr

structure Triangle where
  vertex_indexes : List Nat := []
  vertices : List Nat := []
  deriving DecidableEq, Repr

structure Model where
  name : List Nat := []
  bones : List Bone := []
  vertices : List Vertex := []
  faces : List Triangle := []
  info : List Nat := []
  deriving DecidableEq, Repr

structure BoneLink where
  name : List Nat := []
  index : Int := 0
  parent : Option Nat := none
  parent_index : Int := 0
  deriving DecidableEq, Repr

/-- Pose of animation.py. The class only annotates bone_transforms and no
code path ever succeeds in assigning it, so the field is an Option that
records whether the attribute was ever set. -/
structure Pose where
  bone_transforms : Option (List Transform) := none
  deriving DecidableEq, Repr

structure Frame where
  time : Nat := 0
  flags : Int := 0
  pose : Pose := {}
  deriving DecidableEq, Repr

structure Animation where
  duration : Nat := 0
  bone_links : List BoneLink := []
  initial_pose : Pose := {}
  frames : List Frame := []
  deriving DecidableEq, Repr

structure ScmHeader where
  version : Nat := 0
  bone_data_offset : Nat := 0
  bone_count : Nat := 0
  vertices_offset : Nat := 0
  extra_vertices_offset : Nat := 0
  num_vertices : Nat := 0
  triangles_offset : Nat := 0
  num_triangle_indexes : Nat := 0
  info_string_offset : Nat := 0
  info_string_length : Nat := 0
  deriving DecidableEq, Repr

structure ScaHeader where
  version : Nat := 0
  frames_num : Nat := 0
  duration : Nat := 0
  bones_num : Nat := 0
  bone_names_offset : Nat := 0
  bone_links_offset : Nat := 0
  anim_offset : Nat := 0
  frame_size : Nat := 0
  deriving DecidableEq, Repr

/-! read/_common.py -/

/-- Scan of `iter(lambda: file_reader.read(1).decode(ascii), NUL)` over the
bytes that remain after the seek. Each step reads one byte and decodes it:
a byte at or above 128 raises UnicodeDecodeError; the NUL byte equals the
sentinel and stops the scan. At end of file read(1) returns the empty bytes
object, which decodes to the empty string; the empty string never equals
the one-character sentinel, so the iterator keeps yielding forever and the
join never terminates. -/
def scanCString : List Nat → POut (List Nat)
  | [] => POut.div
  | b :: rest =>
    if b = 0 then POut.ok []
    else if b < 128 then (scanCString rest).bind fun s => POut.ok (b :: s)
    else POut.err PyErr.unicodeDecodeError

/-- read_null_terminated_string(offset, file_reader): seek to offset, then
scan byte by byte for the NUL terminator. -/
def read_null_terminated_string (buf : Buffer) (offset : Nat) : POut (List Nat) :=
  scanCString (buf.drop offset)

/-! read/model.py -/

/-- Result of the test `unpacked_header[0] is not "MODL"` with the negation
folded in: it models `bytes_value is str_value`. The left operand of the
source comparison is a bytes object produced by struct.unpack and the right
operand is a str literal; objects of different types are never the same
object, so the identity test is false for every input. -/
def pyIsBytesStr (_bs : List Nat) (_s : List Nat) : Bool := false

/-- Result of the test `header.version is 5`: both operands are ints and 5
lies in the interned small-int range, so identity agrees with equality. -/
def pyIsSmallInt (a b : Nat) : Bool := a == b

def modlMagic : List Nat := [77, 79, 68, 76]

/-- Model-side _read_header. Its first statement is
struct.unpack_from(4s11I, file_reader, 0), which raises TypeError on the
file object before anything else; the magic identity check (itself always
true, because a bytes object is never the same object as a str literal),
the field population and the version identity check are all
unreachable. -/
def read_header_scm (buf : Buffer) : POut ScmHeader :=
  unpackFromFileReader.bind fun _ =>
    if pyIsBytesStr (buf.take 4) modlMagic then
      let header : ScmHeader :=
        { version := readLE32 buf 4
          bone_data_offset := readLE32 buf 8
          bone_count := readLE32 buf 12
          vertices_offset := readLE32 buf 16
          extra_vertices_offset := readLE32 buf 20
          num_vertices := readLE32 buf 24
          triangles_offset := readLE32 buf 28
          num_triangle_indexes := readLE32 buf 32
          info_string_offset := readLE32 buf 36
          info_string_length := readLE32 buf 40 }
      if pyIsSmallInt header.version 5 then POut.ok header
      else POut.err PyErr.fileVersionError
    else POut.err PyErr.fileError

/-- struct.calcsize of the bone record format 16f3f4f4i: 27 fields of 4
bytes each. -/
def boneRecordSize : Nat := 108

/-- One iteration of the bone loop, at loop index i: the body begins with
struct.unpack_from(16f3f4f4i, file_reader, offset), which raises TypeError
on the file object. The field slices (matrix rows of 3 floats, a 2-float
position, a 3-float rotation), the name read at the unpacked name offset,
and `bones += bone` — itself a TypeError, because a Bone object is not
iterable — are all unreachable. -/
def boneStep (buf : Buffer) (header : ScmHeader) (i : Nat) : POut Unit :=
  unpackFromFileReader.bind fun _ =>
    let base := header.bone_data_offset + boneRecordSize * i
    (read_null_terminated_string buf (readLE32 buf (base + 4 * 23))).bind fun _name =>
      POut.err PyErr.typeError

def bonesLoopFrom (buf : Buffer) (header : ScmHeader) : Nat → Nat → POut Unit
  | _, 0 => POut.ok ()
  | i, r + 1 => (boneStep buf header i).bind fun _ =>
      bonesLoopFrom buf header (i + 1) r

/-- Model-side _read_bones. The record loop is
`for i in range(0, header.bone_count - 1)` and therefore runs one fewer
time than the bone count (and zero times for counts 0 and 1). When the
loop completes, the parent-resolution loop runs over the list built so
far, which is necessarily empty, and the empty list is returned. -/
def read_bones (buf : Buffer) (header : ScmHeader) : POut (List Bone) :=
  (bonesLoopFrom buf header 0 (header.bone_count - 1)).bind fun _ =>
    POut.ok []

/-- struct.calcsize of the vertex record format 3f3f3f3f2f2f4B. -/
def vertexRecordSize : Nat := 68

/-- One bone-skin slot of a vertex, unreachable in the real program (the
per-vertex unpack fails first): `continue` when the byte is 255; otherwise
the body `vertex.bones += bones[bone_index]` runs, and the attribute load
of vertex.bones happens before bones[bone_index] is evaluated. Vertex only
annotates bones and never assigns it, so the load would raise
AttributeError for every non-255 byte, in range or not, and the
surrounding `except IndexError` clause would not catch it. -/
def vertexSlotStep (buf : Buffer) (off : Nat) : POut Unit :=
  if byteAt buf off = 255 then POut.ok ()
  else POut.err PyErr.attributeError

/-- One iteration of the vertex loop: the body begins with
struct.unpack_from(3f3f3f3f2f2f4B, file_reader, vertex_offset), which
raises TypeError on the file object before any skin byte is examined. The
geometry slices and the skin-slot loop — which is `range(16, 19)` and so
would only visit fields 16, 17 and 18 (record bytes 64, 65, 66), never
the fourth skin byte — are unreachable. -/
def vertexStep (buf : Buffer) (header : ScmHeader) (i : Nat) : POut Unit :=
  unpackFromFileReader.bind fun _ =>
    let off := header.vertices_offset + i * vertexRecordSize
    (vertexSlotStep buf (off + 64)).bind fun _ =>
      (vertexSlotStep buf (off + 65)).bind fun _ =>
        vertexSlotStep buf (off + 66)

def verticesLoopFrom (buf : Buffer) (header : ScmHeader) : Nat → Nat → POut Unit
  | _, 0 => POut.ok ()
  | i, r + 1 => (vertexStep buf header i).bind fun _ =>
      verticesLoopFrom buf header (i + 1) r

/-- Model-side _read_vertices. The local list `vertices` is created empty
and no statement ever appends to it, so when every iteration of the loop
finishes without an exception the function returns the empty list,
whatever num_vertices says. -/
def read_vertices (buf : Buffer) (header : ScmHeader) (bones : List Bone) :
    POut (List Vertex) :=
  (verticesLoopFrom buf header 0 header.num_vertices).bind fun _ =>
    POut.ok []

/-- The class attribute lookup `ScmHeader.num_triangle_indexes` performed
by the assert line of _read_triangles: the class body only annotates the
name and never assigns it, so the lookup finds nothing. -/
def scmHeaderClass_num_triangle_indexes : Option Nat := none

/-- One iteration of the triangle loop (itself dead code behind the
class-attribute AttributeError of read_triangles): the try body begins
with struct.unpack_from(3H, file_reader, triangle_offset), a TypeError
that the `except IndexError` clause does not catch. The inner loop, whose
body `triangle.vertices += vertices[vertex_index]` would load the
never-assigned triangle.vertices attribute before indexing the vertex
list and raise AttributeError, is unreachable; IncompleteTriangle is
never raised. -/
def triangleStep (buf : Buffer) (header : ScmHeader) (i : Nat) : POut Unit :=
  unpackFromFileReader.bind fun _ =>
    POut.err PyErr.attributeError

def trianglesLoopFrom (buf : Buffer) (header : ScmHeader) : Nat → Nat → POut Unit
  | _, 0 => POut.ok ()
  | i, r + 1 => (triangleStep buf header i).bind fun _ =>
      trianglesLoopFrom buf header (i + 1) r

/-- Model-side _read_triangles. The first statement is
`assert (ScmHeader.num_triangle_indexes % 3 == 0, msg)`: building the
asserted tuple evaluates `ScmHeader.num_triangle_indexes`, a lookup of an
annotated-but-never-assigned attribute on the class object, which raises
AttributeError before anything is read. Were the lookup to succeed, the
nonempty tuple would be truthy and the assert could never fire, and the
loop would run `int(header.num_triangle_indexes / 3)` times; the local
list `triangles` is never appended to, so a completed loop returns the
empty list. -/
def read_triangles (buf : Buffer) (header : ScmHeader) (vertices : List Vertex) :
    POut (List Triangle) :=
  match scmHeaderClass_num_triangle_indexes with
  | none => POut.err PyErr.attributeError
  | some _n =>
    (trianglesLoopFrom buf header 0 (header.num_triangle_indexes / 3)).bind fun _ =>
      POut.ok []

/-- Model-side _read_info: read info_string_length bytes at
info_string_offset (a short read at end of file is silent) and decode them
as ASCII. -/
def read_info (buf : Buffer) (header : ScmHeader) : POut (List Nat) :=
  let bytes := (buf.drop header.info_string_offset).take header.info_string_length
  if bytes.all (fun b => b < 128) then POut.ok bytes
  else POut.err PyErr.unicodeDecodeError

/-- read_model: header, bones, vertices, triangles, info, in that order,
each error aborting the whole decode. -/
def read_model (buf : Buffer) : POut Model := do
  let header ← read_header_scm buf
  let bones ← read_bones buf header
  let vertices ← read_vertices buf header bones
  let faces ← read_triangles buf header vertices
  let info ← read_info buf header
  POut.ok { bones := bones, vertices := vertices, faces := faces, info := info }

/-! read/animation.py -/

def animMagic : List Nat := [65, 78, 73, 77]

/-- Animation-side _read_header. Its first statement is
struct.unpack_from(4s2If5I, file_reader, 0), which raises TypeError on the
file object before anything else; the magic identity check against the str
literal (always true), the field population and the version identity check
are all unreachable. -/
def read_header_sca (buf : Buffer) : POut ScaHeader :=
  unpackFromFileReader.bind fun _ =>
    if pyIsBytesStr (buf.take 4) animMagic then
      let header : ScaHeader :=
        { version := readLE32 buf 4
          frames_num := readLE32 buf 8
          duration := readLE32 buf 12
          bones_num := readLE32 buf 16
          bone_names_offset := readLE32 buf 20
          bone_links_offset := readLE32 buf 24
          anim_offset := readLE32 buf 28
          frame_size := readLE32 buf 32 }
      if pyIsSmallInt header.version 5 then POut.ok header
      else POut.err PyErr.fileVersionError
    else POut.err PyErr.fileError

/-- Animation-side _read_bone_links. With bones_num = 0 all three loops run
zero times and the empty list is returned. Otherwise the first iteration of
the name loop reads the string at bone_names_offset (the position after the
seek) and then executes `bone_links += bone_link`, which extends a list
with a BoneLink object; a BoneLink is not iterable, so this raises
TypeError. The parent-index loop, its out-of-range handling that raises
InvalidBoneLinkError, and the resolution loop are all unreachable. -/
def read_bone_links (buf : Buffer) (header : ScaHeader) : POut (List BoneLink) :=
  if header.bones_num = 0 then POut.ok []
  else
    (read_null_terminated_string buf header.bone_names_offset).bind fun _name =>
      POut.err PyErr.typeError

/-- struct.calcsize of the frame header format fi. -/
def frame_header_size : Nat := 8

/-- Animation-side _read_pose at a given offset. The assert
`assert (header.frame_size == struct.calcsize(pose_format) - 8, msg)`
wraps a nonempty tuple, which is truthy, so it never fires and no size
comparison takes effect. A fresh Pose is created; then the pose unpack
struct.unpack_from(3f4f repeated per bone link, file_reader, pose_offset)
raises TypeError on the file object — even when the format is empty — so
no Pose is ever returned. The transform loop, which would run
`int(len(animation.bone_links) / 7)` times (floor(links / 7), not once
per link) and whose body `pose.bone_transforms += transform` would load
the never-assigned bone_transforms attribute and raise AttributeError, is
unreachable. -/
def read_pose (buf : Buffer) (pose_offset : Int) (header : ScaHeader)
    (bone_links : List BoneLink) : POut Pose :=
  unpackFromFileReader.bind fun _ =>
    if bone_links.length / 7 = 0 then POut.ok { bone_transforms := none }
    else POut.err PyErr.attributeError

/-- Source line `frame_offset = frames_start_offset + i * header.frames_num`
with `frames_start_offset = header.anim_offset + pose_size` and
`pose_size = header.frame_size - frame_header_size`: the stride between
frames is the frame count, not the declared frame size. -/
def frameOffset (header : ScaHeader) (i : Nat) : Int :=
  (header.anim_offset : Int) + ((header.frame_size : Int) - (frame_header_size : Int))
    + (i : Int) * (header.frames_num : Int)

/-- One iteration of the frame loop: frame_offset is computed with the
pure arithmetic of frameOffset, then struct.unpack_from(fi, file_reader,
frame_offset) raises TypeError on the file object. The frame fields, the
pose read right after the frame header, and `frames += frame` — itself a
TypeError, because a Frame object is not iterable — are unreachable. -/
def frameStep (buf : Buffer) (header : ScaHeader) (bone_links : List BoneLink)
    (i : Nat) : POut Unit :=
  unpackFromFileReader.bind fun _ =>
    (read_pose buf (frameOffset header i + 8) header bone_links).bind fun _pose =>
      POut.err PyErr.typeError

def framesLoopFrom (buf : Buffer) (header : ScaHeader)
    (bone_links : List BoneLink) : Nat → Nat → POut Unit
  | _, 0 => POut.ok ()
  | i, r + 1 => (frameStep buf header bone_links i).bind fun _ =>
      framesLoopFrom buf header bone_links (i + 1) r

/-- Animation-side _read_frames: run the frame loop frames_num times; a
completed loop returns the frames list, which can only be empty. -/
def read_frames (buf : Buffer) (header : ScaHeader)
    (bone_links : List BoneLink) : POut (List Frame) :=
  (framesLoopFrom buf header bone_links 0 header.frames_num).bind fun _ =>
    POut.ok []

/-- read_animation: header, bone links, initial pose at anim_offset,
frames, in that order, each error aborting the whole decode. -/
def read_animation (buf : Buffer) : POut Animation := do
  let header ← read_header_sca buf
  let bone_links ← read_bone_links buf header
  let initial_pose ← read_pose buf (header.anim_offset : Int) header bone_links
  let frames ← read_frames buf header bone_links
  POut.ok { duration := header.duration, bone_links := bone_links,
            initial_pose := initial_pose, frames := frames }

/-! Concrete inputs for the claims. -/

/-- The valid Model buffer of the scenario in the spec: header (48 bytes,
magic MODL, version 5), name table at 48 (root and child, NUL terminated,
one pad byte), two bone records at 60 (root with parent index -1, name
offset 48; child with parent index 0, name offset 53), three vertex
records at 276 (zero geometry, skin bytes 0, 255, 255, 255), one triangle
at 480 with indices 0, 1, 2, empty info string at 486. -/
def scenarioModelBuf : Buffer :=
  [77, 79, 68, 76] ++ u32le 5 ++ u32le 60 ++ u32le 2 ++ u32le 276 ++ u32le 0 ++
    u32le 3 ++ u32le 480 ++ u32le 3 ++ u32le 486 ++ u32le 0 ++
  [114, 111, 111, 116, 0] ++ [99, 104, 105, 108, 100, 0] ++ [0] ++
  (List.replicate 92 0 ++ u32le 48 ++ u32le 4294967295 ++ u32le 0 ++ u32le 0) ++
  (List.replicate 92 0 ++ u32le 53 ++ u32le 0 ++ u32le 0 ++ u32le 0) ++
  (List.replicate 64 0 ++ [0, 255, 255, 255]) ++
  (List.replicate 64 0 ++ [0, 255, 255, 255]) ++
  (List.replicate 64 0 ++ [0, 255, 255, 255]) ++
  [0, 0, 1, 0, 2, 0]

/-- A 48-byte Model header with the correct magic and version 5. -/
def modlV5Header : Buffer := [77, 79, 68, 76] ++ u32le 5 ++ List.replicate 40 0

/-- A 36-byte Animation header with the correct magic and version 5. -/
def animV5Header : Buffer := [65, 78, 73, 77] ++ u32le 5 ++ List.replicate 28 0

/-- Animation header describing one bone link whose name table sits at
offset 0 and whose parent-index table sits at offset 2. -/
def c3Header : ScaHeader :=
  { version := 5, frames_num := 0, duration := 0, bones_num := 1,
    bone_names_offset := 0, bone_links_offset := 2, anim_offset := 6,
    frame_size := 8 }

/-- Name table entry a NUL, then the parent index 5, out of range for a
single-link array. -/
def c3Buf : Buffer := [97, 0] ++ u32le 5

/-- Model header declaring exactly one bone at offset 0. -/
def oneBoneHeader : ScmHeader :=
  { version := 5, bone_data_offset := 0, bone_count := 1 }

/-- Model header declaring two bones at offset 0. -/
def twoBoneHeader : ScmHeader :=
  { version := 5, bone_data_offset := 0, bone_count := 2 }

/-- 216 zero bytes: two all-zero bone records; every name offset is 0 and
the byte there is NUL, so name reads succeed with the empty name. -/
def zeroBoneRecords : Buffer := List.replicate 216 0

/-- Model header declaring one vertex at offset 0. -/
def oneVertexHeader : ScmHeader :=
  { version := 5, vertices_offset := 0, num_vertices := 1 }

/-- One vertex record whose first skin byte is 0, an in-range reference to
bone 0 when one bone exists; the other skin bytes are the 255 sentinel. -/
def vertexSkinZeroBuf : Buffer := List.replicate 64 0 ++ [0, 255, 255, 255]

/-- One vertex record with all four skin bytes set to the 255 sentinel. -/
def vertexSkinNoneBuf : Buffer := List.replicate 64 0 ++ [255, 255, 255, 255]

/-- A default-initialized bone, used as the single element of a bone
array. -/
def bone0 : Bone := {}

/-- Model header declaring 3 triangle indexes (one triangle) at offset 0. -/
def c6Header : ScmHeader :=
  { version := 5, triangles_offset := 0, num_triangle_indexes := 3 }

/-- One stored triple of 16-bit indices: 0, 1, 2. -/
def c6Buf : Buffer := [0, 0, 1, 0, 2, 0]

/-- Three vertices carrying their ordinal indices, enough to resolve the
triple 0, 1, 2. -/
def c6Vertices : List Vertex := [{ index := 0 }, { index := 1 }, { index := 2 }]

/-- Animation header with two frames of declared size 64 whose animation
data starts at offset 100, over three bone links. -/
def c7Header : ScaHeader :=
  { version := 5, frames_num := 2, duration := 0, bones_num := 3,
    bone_names_offset := 36, bone_links_offset := 40, anim_offset := 100,
    frame_size := 64 }

/-- Three bone links with their ordinal indices. -/
def threeLinks : List BoneLink := [{ index := 0 }, { index := 1 }, { index := 2 }]

/-- 84 zero bytes: a pose block for three bone links (28 bytes each). -/
def c7PoseBuf : Buffer := List.replicate 84 0

/-- Animation header whose declared frame_size 999 disagrees with the
frame header size 8 plus the pose size computed from zero bone links. -/
def c8Header : ScaHeader :=
  { version := 5, frames_num := 1, duration := 0, bones_num := 0,
    bone_names_offset := 36, bone_links_offset := 36, anim_offset := 0,
    frame_size := 999 }

/-- Model header declaring 4 triangle indexes, not a multiple of 3, at
offset 0. -/
def c10Header : ScmHeader :=
  { version := 5, triangles_offset := 0, num_triangle_indexes := 4 }

/-- Four stored 16-bit indices: the triple 0, 1, 2 and one trailing 0. -/
def c10Buf : Buffer := [0, 0, 1, 0, 2, 0, 0, 0]

/-- Three vertices for the c10 buffer. -/
def c10Vertices : List Vertex := [{ index := 0 }, { index := 1 }, { index := 2 }]

/-! Claim theorems. -/

/-- C1: the spec scenario claims that a valid Model buffer with one root
bone, one child bone, three skinned vertices and one triangle decodes
without error into a populated Model. The code instead raises TypeError on
this very buffer at the very first header statement, because
struct.unpack_from is handed the io.BufferedReader instead of a bytes-like
object; the magic check never even runs and no Model is ever returned. -/
theorem c1_scenario_decode_raises_type_error :
    read_model scenarioModelBuf = POut.err PyErr.typeError := by decide

/-- C2: the claim says the decoders reject exactly the buffers whose magic
differs and accept magic MODL or ANIM with version 5. The code rejects
even a correct header: both header readers raise TypeError at the unpack
of the header record — struct.unpack_from is given the file object itself
— on buffers whose first bytes are exactly the expected magic with version
5, so header decoding never succeeds, and both the BadMagicError and the
UnsupportedVersionError branches are unreachable. -/
theorem c2_header_unpack_type_error :
    read_header_scm modlV5Header = POut.err PyErr.typeError ∧
    read_header_sca animV5Header = POut.err PyErr.typeError := by decide

/-- C3: the claim says an out-of-range parent index makes the decode fail
with InvalidBoneLinkError and that returned hierarchies are cycle-free
forests. On a one-link animation whose stored parent index 5 is out of
range, the bone-link reader raises TypeError at the list extension in the
name loop, before the parent table is even read; InvalidBoneLinkError is
unreachable and no decode ever returns a hierarchy. -/
theorem c3_bone_link_failure_is_type_error :
    read_bone_links c3Buf c3Header = POut.err PyErr.typeError := by decide

set_option maxRecDepth 4000 in
/-- C4: the claim says the bone decoder returns exactly bone_count bones.
The record loop runs bone_count - 1 times: with one declared bone and a
valid record present it reads nothing and returns the empty list, and with
two declared bones it raises TypeError at the list extension `bones +=
bone` during the first iteration. -/
theorem c4_read_bones_count_off_by_one :
    read_bones zeroBoneRecords oneBoneHeader = POut.ok [] ∧
    read_bones zeroBoneRecords twoBoneHeader = POut.err PyErr.typeError := by decide

/-- C5: the claim says a skin byte below bone_count adds a bone reference,
an out-of-range byte is silently skipped, and no skin byte ever aborts the
decode. In the code no skin byte is ever examined: the per-vertex unpack
raises TypeError on the file object before the skin-slot loop, so a vertex
with an in-range skin byte and a vertex with all-255 sentinel bytes alike
abort the decode with TypeError, and no vertex is ever returned. -/
theorem c5_read_vertices_unpack_type_error :
    read_vertices vertexSkinZeroBuf oneVertexHeader [bone0] =
      POut.err PyErr.typeError ∧
    read_vertices vertexSkinNoneBuf oneVertexHeader [bone0] =
      POut.err PyErr.typeError := by decide

/-- C6: the claim says the triangle decoder returns one resolved triangle
per stored triple and fails with IncompleteTriangleError exactly on an
out-of-range index. On a buffer holding the valid triple 0, 1, 2 with
three vertices available, the decoder instead raises AttributeError at its
first statement, the assert that reads the never-assigned class attribute
ScmHeader.num_triangle_indexes. -/
theorem c6_read_triangles_attribute_error :
    read_triangles c6Buf c6Header c6Vertices = POut.err PyErr.attributeError := by
  decide

/-- C7: the claim says frame i is read at anim_offset + pose_size + i *
frame_size and that a pose block yields one transform per bone link. With
anim_offset 100, frame_size 64 and frames_num 2 the code computes frame 1
at offset 158 = 100 + 56 + 2, using the frame count 2 as the stride
instead of the frame size 64 (the claimed offset is 220); and no pose
block ever yields any transforms, because the pose unpack raises TypeError
on the file object and _read_pose never returns a Pose. -/
theorem c7_frame_stride_wrong_and_pose_never_returned :
    frameOffset c7Header 1 = 158 ∧
    frameOffset c7Header 1 ≠ (c7Header.anim_offset : Int) +
      ((c7Header.frame_size : Int) - (frame_header_size : Int)) +
      1 * (c7Header.frame_size : Int) ∧
    read_pose c7PoseBuf 0 c7Header threeLinks =
      POut.err PyErr.typeError := by decide

/-- C8: the claim says a declared frame_size that disagrees with the frame
header size plus the computed pose size makes the decode fail with
TruncatedInputError before a pose is returned. With zero bone links and
frame_size 999 the size relation is violated, yet no TruncatedInputError
arises: the size check is an assert over a nonempty tuple, always truthy
and never firing, and what the pose reader then raises is TypeError at
the unpack of the (here empty) pose format on the file object — a failure
unrelated to the declared size, identical for matching and mismatching
frame_size values. -/
theorem c8_read_pose_type_error_not_size_check :
    c8Header.frame_size ≠ frame_header_size + 28 * ([] : List BoneLink).length ∧
    read_pose [] 0 c8Header [] = POut.err PyErr.typeError := by decide

/-- C9: the claim says the string reader fails with TruncatedInputError
when no NUL terminator occurs before end of buffer, and always terminates.
On the one-byte buffer 65 with no terminator the scan reaches end of file,
where read of one byte returns the empty bytes object forever and the
sentinel is never produced: the call diverges instead of raising. On a
terminated buffer the bytes before the first NUL are returned. -/
theorem c9_cstring_diverges_without_terminator :
    read_null_terminated_string [65] 0 = POut.div ∧
    read_null_terminated_string [104, 105, 0, 7] 0 = POut.ok [104, 105] := by decide

/-- C10: the claim says that with num_triangle_indexes = 4 the decoder
reads exactly one triple and silently ignores the trailing index, the
truthy-tuple assert never firing. At this concrete input the decoder reads
no triple at all: it raises AttributeError at the assert line, so it does
not return the one-triangle list the claim predicts. -/
theorem c10_counterexample_non_multiple_of_three :
    read_triangles c10Buf c10Header c10Vertices = POut.err PyErr.attributeError := by
  decide

/-- C10 amended: the multiple-of-3 assertion indeed never raises
AssertionError, but not because its tuple is truthy: building the tuple
reads ScmHeader.num_triangle_indexes from the class object, where the name
is only annotated and never assigned, so every call of the triangle
decoder raises AttributeError before reading any triple, for any buffer,
header and vertex list. -/
theorem c10_amended_read_triangles_always_fails :
    ∀ (buf : Buffer) (header : ScmHeader) (vertices : List Vertex),
      read_triangles buf header vertices = POut.err PyErr.attributeError := by
  intro buf header vertices
  rfl

end PySupComIO
